import Mathlib

/-!
Verification of the credential component declared in
`Pods/Realm/include/sync/app_credentials.hpp`.

The header declares the data model (the `AuthProvider` enumeration, the
tagged string aliases `AuthCode` and `IdToken`, and the `AppCredentials`
struct with its private members `m_provider : AuthProvider` and
`m_payload_factory : std::function<std::string()>`) together with the
factory and accessor signatures.  The translation unit implementing the
factories, `provider_type_from_enum` and the accessors is not part of the
repository snapshot, so those bodies are modelled from the specification,
as marked on each definition below.
-/

namespace Realm

/-- Modelled from the spec: the Tagged Scalar of `util/tagged_string.hpp`
(the header is missing from the snapshot; only the aliases
`using AuthCode = util::TaggedString<class AuthCodeTag>` and
`using IdToken = util::TaggedString<class IdTokenTag>` appear in
`app_credentials.hpp`).  A plain string branded with a phantom marker type;
`make` wraps with no validation and `data` is the explicit unwrap. -/
structure TaggedString (Tag : Type) where
  data : String

/-- Wrap a string into a tagged scalar, no validation. -/
def TaggedString.make {Tag : Type} (s : String) : TaggedString Tag :=
  ⟨s⟩

/-- Marker type of the Google authorization-code flow. -/
inductive AuthCodeTag : Type

/-- Marker type of the Google id-token flow. -/
inductive IdTokenTag : Type

/-- `using AuthCode = util::TaggedString<class AuthCodeTag>` from the header. -/
abbrev AuthCode := TaggedString AuthCodeTag

/-- `using IdToken = util::TaggedString<class IdTokenTag>` from the header. -/
abbrev IdToken := TaggedString IdTokenTag

/-- `typedef std::string IdentityProvider` from the header. -/
abbrev IdentityProvider := String

/-- `typedef std::string AppCredentialsToken` from the header. -/
abbrev AppCredentialsToken := String

/-- The `enum class AuthProvider` of the header, all nine variants in
declaration order. -/
inductive AuthProvider : Type
  | ANONYMOUS
  | FACEBOOK
  | GOOGLE
  | APPLE
  | CUSTOM
  | USERNAME_PASSWORD
  | FUNCTION
  | USER_API_KEY
  | SERVER_API_KEY
  deriving DecidableEq

/-- Modelled from the spec: the canonical wire name constants declared
`extern` in the header (their defining translation unit is missing from the
snapshot).  The spec gives the canonical forms "local-userpass",
"oauth2-google", "anon-user", "custom-function", "api-key". -/
def IdentityProviderAnonymous : IdentityProvider := "anon-user"

/-- Modelled from the spec: canonical wire name of the Facebook provider. -/
def IdentityProviderFacebook : IdentityProvider := "oauth2-facebook"

/-- Modelled from the spec: canonical wire name of the Google provider. -/
def IdentityProviderGoogle : IdentityProvider := "oauth2-google"

/-- Modelled from the spec: canonical wire name of the Apple provider. -/
def IdentityProviderApple : IdentityProvider := "oauth2-apple"

/-- Modelled from the spec: canonical wire name of the custom JWT provider. -/
def IdentityProviderCustom : IdentityProvider := "custom-token"

/-- Modelled from the spec: canonical wire name of the username/password
provider ("local-userpass"). -/
def IdentityProviderUsernamePassword : IdentityProvider := "local-userpass"

/-- Modelled from the spec: canonical wire name of the function provider
("custom-function"). -/
def IdentityProviderFunction : IdentityProvider := "custom-function"

/-- Modelled from the spec: canonical wire name of the user API key
provider ("api-key"). -/
def IdentityProviderUserAPIKey : IdentityProvider := "api-key"

/-- Modelled from the spec: canonical wire name of the server API key
provider ("api-key"). -/
def IdentityProviderServerAPIKey : IdentityProvider := "api-key"

/-- Modelled from the spec: `provider_type_from_enum`, declared in the
header and described by the spec as the pure total mapping from each
`AuthProvider` variant to its canonical wire-format provider name. -/
def provider_type_from_enum : AuthProvider → IdentityProvider
  | .ANONYMOUS => IdentityProviderAnonymous
  | .FACEBOOK => IdentityProviderFacebook
  | .GOOGLE => IdentityProviderGoogle
  | .APPLE => IdentityProviderApple
  | .CUSTOM => IdentityProviderCustom
  | .USERNAME_PASSWORD => IdentityProviderUsernamePassword
  | .FUNCTION => IdentityProviderFunction
  | .USER_API_KEY => IdentityProviderUserAPIKey
  | .SERVER_API_KEY => IdentityProviderServerAPIKey

/-- Modelled from the spec: a scalar value of the external document
library (`bson::Bson`), an external collaborator per the spec.  The
`unencodable` variant models a malformed or unencodable node, the only
origin of encoder failure the spec admits. -/
inductive BsonValue : Type
  | str (s : String)
  | int (n : Int)
  | boolean (b : Bool)
  | unencodable

/-- Modelled from the spec: `bson::BsonDocument`, a structured document of
named fields supporting canonical text serialization. -/
abbrev BsonDocument := List (String × BsonValue)

/-- JSON rendering of a string value: quote the text. -/
def jsonString (s : String) : String :=
  "\"" ++ s ++ "\""

/-- JSON rendering of an object from already-rendered field values. -/
def jsonObject (fields : List (String × String)) : String :=
  "\x7b" ++ String.intercalate (",") (fields.map (fun kv => jsonString kv.1 ++ (":") ++ kv.2)) ++ "\x7d"

/-- Modelled from the spec: the external document encoder on one scalar.
Encoding fails exactly on an unencodable node, with the distinct
"payload encoding failed" error the spec names. -/
def encodeValue : BsonValue → Except String String
  | .str s => .ok (jsonString s)
  | .int n => .ok (toString n)
  | .boolean b => .ok (cond b ("true") ("false"))
  | .unencodable => .error ("payload encoding failed")

/-- Modelled from the spec: the Document Payload Encoder converting a
structured document to its canonical text serialization; fails iff some
field value is unencodable. -/
def encodeDocument (d : BsonDocument) : Except String String := do
  let fields ← d.mapM (fun kv => do
    let v ← encodeValue kv.2
    pure (kv.1, v))
  pure (jsonObject fields)

/-- The `AppCredentials` struct of the header: the private members
`m_provider : AuthProvider` and
`m_payload_factory : std::function<std::string()>`.  A `std::function` is
modelled as an optional thunk: `none` is the empty function a
default-constructed `std::function` holds (invoking it does not return a
payload), `some f` is a captured payload producer. -/
structure AppCredentials where
  m_provider : AuthProvider
  m_payload_factory : Option (Unit → String)

namespace AppCredentials

/-- The defaulted public constructor `AppCredentials() = default` of the
header.  It bypasses every factory: the payload factory member is the
empty `std::function` and the provider tag is default-initialized, hence
indeterminate; the parameter `p` ranges over the possible indeterminate
tags. -/
def default_construct (p : AuthProvider) : AppCredentials :=
  ⟨p, none⟩

/-- Modelled from the spec: `AppCredentials::anonymous()`, provider tag
`ANONYMOUS`, payload an empty/minimal JSON object. -/
def anonymous : AppCredentials :=
  ⟨.ANONYMOUS, some fun _ => jsonObject []⟩

/-- Modelled from the spec: `AppCredentials::facebook(access_token)`,
provider tag `FACEBOOK`, payload an accessToken-keyed object. -/
def facebook (access_token : AppCredentialsToken) : AppCredentials :=
  ⟨.FACEBOOK, some fun _ => jsonObject [("accessToken", jsonString access_token)]⟩

/-- Modelled from the spec: `AppCredentials::apple(id_token)`, provider
tag `APPLE`, payload an id_token-keyed object. -/
def apple (id_token : AppCredentialsToken) : AppCredentials :=
  ⟨.APPLE, some fun _ => jsonObject [("id_token", jsonString id_token)]⟩

/-- Modelled from the spec: `AppCredentials::google(AuthCode&&)`, provider
tag `GOOGLE`, payload keyed for the authorization-code flow. -/
def google_auth_code (auth_code : AuthCode) : AppCredentials :=
  ⟨.GOOGLE, some fun _ => jsonObject [("authCode", jsonString auth_code.data)]⟩

/-- Modelled from the spec: `AppCredentials::google(IdToken&&)`, provider
tag `GOOGLE`, payload keyed for the id-token flow. -/
def google_id_token (id_token : IdToken) : AppCredentials :=
  ⟨.GOOGLE, some fun _ => jsonObject [("id_token", jsonString id_token.data)]⟩

/-- Modelled from the spec: `AppCredentials::custom(token)`, provider tag
`CUSTOM`, payload a token-keyed object. -/
def custom (token : AppCredentialsToken) : AppCredentials :=
  ⟨.CUSTOM, some fun _ => jsonObject [("token", jsonString token)]⟩

/-- Modelled from the spec: `AppCredentials::username_password(username,
password)`, provider tag `USERNAME_PASSWORD`, payload an object with both
fields. -/
def username_password (username password : String) : AppCredentials :=
  ⟨.USERNAME_PASSWORD, some fun _ =>
    jsonObject [("username", jsonString username), ("password", jsonString password)]⟩

/-- Modelled from the spec: `AppCredentials::function(const
bson::BsonDocument&)`.  The document is encoded eagerly at construction
(the spec: the document payload is pre-serialized at construction to
freeze its content, and an encoding failure is raised immediately at
construction rather than deferred); on success the frozen text is captured
by the payload producer. -/
def function_doc (payload : BsonDocument) : Except String AppCredentials := do
  let serialized ← encodeDocument payload
  pure ⟨.FUNCTION, some fun _ => serialized⟩

/-- Modelled from the spec: `AppCredentials::function(const std::string&)`.
The caller-supplied text is treated as already-canonical and stored
directly, with no validation. -/
def function_text (serialized_payload : String) : AppCredentials :=
  ⟨.FUNCTION, some fun _ => serialized_payload⟩

/-- Modelled from the spec: `AppCredentials::user_api_key(api_key)`,
provider tag `USER_API_KEY`, payload a key-keyed object. -/
def user_api_key (api_key : String) : AppCredentials :=
  ⟨.USER_API_KEY, some fun _ => jsonObject [("key", jsonString api_key)]⟩

/-- Modelled from the spec: `AppCredentials::server_api_key(api_key)`,
provider tag `SERVER_API_KEY`, payload a key-keyed object. -/
def server_api_key (api_key : String) : AppCredentials :=
  ⟨.SERVER_API_KEY, some fun _ => jsonObject [("key", jsonString api_key)]⟩

/-- Modelled from the spec: `AppCredentials::provider()`, the pure
accessor of the provider tag. -/
def provider (c : AppCredentials) : AuthProvider :=
  c.m_provider

/-- Modelled from the spec: `AppCredentials::provider_as_string()`,
equivalent to `provider_type_from_enum(provider())`. -/
def provider_as_string (c : AppCredentials) : String :=
  provider_type_from_enum c.m_provider

/-- Modelled from the spec: `AppCredentials::serialize_as_json()`, which
invokes the captured payload producer.  On a credential whose
`std::function` member is empty (default-constructed), the invocation does
not return a payload, modelled as `none`. -/
def serialize_as_json (c : AppCredentials) : Option String :=
  c.m_payload_factory.map (fun f => f ())

/-- The public defaulted copy assignment `operator=(AppCredentials
const&) = default` of the header, read as a state transformer on the
assigned-to object: the post-state of `target = source` is a memberwise
copy of the source, both members replaced together. -/
def assign (_target source : AppCredentials) : AppCredentials :=
  source

/-- The accessor `provider()` read as a state transformer on the object it
is invoked on: it is a const member function, so it returns the tag and
leaves the object state unchanged. -/
def provider_op (c : AppCredentials) : AuthProvider × AppCredentials :=
  (c.m_provider, c)

/-- The accessor `provider_as_string()` read as a state transformer: const
member function, state unchanged. -/
def provider_as_string_op (c : AppCredentials) : String × AppCredentials :=
  (provider_type_from_enum c.m_provider, c)

/-- The accessor `serialize_as_json()` read as a state transformer: const
member function, it invokes the captured producer and leaves the object
state unchanged. -/
def serialize_as_json_op (c : AppCredentials) : Option String × AppCredentials :=
  (serialize_as_json c, c)

end AppCredentials

end Realm

open Realm Realm.AppCredentials

/-- C1: every factory sets the provider tag documented for it (ANONYMOUS,
FACEBOOK, APPLE, GOOGLE for both google overloads, CUSTOM,
USERNAME_PASSWORD, FUNCTION for both function overloads, USER_API_KEY,
SERVER_API_KEY), and on every credential `provider_as_string()` equals
`provider_type_from_enum(provider())`. -/
theorem C1_provider_payload_consistency :
    anonymous.provider = AuthProvider.ANONYMOUS ∧
    (∀ t : AppCredentialsToken, (facebook t).provider = AuthProvider.FACEBOOK) ∧
    (∀ t : AppCredentialsToken, (apple t).provider = AuthProvider.APPLE) ∧
    (∀ c : AuthCode, (google_auth_code c).provider = AuthProvider.GOOGLE) ∧
    (∀ t : IdToken, (google_id_token t).provider = AuthProvider.GOOGLE) ∧
    (∀ t : AppCredentialsToken, (custom t).provider = AuthProvider.CUSTOM) ∧
    (∀ u p : String, (username_password u p).provider = AuthProvider.USERNAME_PASSWORD) ∧
    (∀ d : BsonDocument,
      Except.map AppCredentials.provider (function_doc d) =
        Except.map (fun _ => AuthProvider.FUNCTION) (encodeDocument d)) ∧
    (∀ s : String, (function_text s).provider = AuthProvider.FUNCTION) ∧
    (∀ k : String, (user_api_key k).provider = AuthProvider.USER_API_KEY) ∧
    (∀ k : String, (server_api_key k).provider = AuthProvider.SERVER_API_KEY) ∧
    (∀ c : AppCredentials, c.provider_as_string = provider_type_from_enum c.provider) := by
  refine ⟨rfl, fun _ => rfl, fun _ => rfl, fun _ => rfl, fun _ => rfl, fun _ => rfl,
    fun _ _ => rfl, fun d => ?_, fun _ => rfl, fun _ => rfl, fun _ => rfl, fun _ => rfl⟩
  cases hd : encodeDocument d with
  | error e => simp [function_doc, hd, Except.map]
  | ok t => simp [function_doc, hd, Except.map, provider]

/-- C2: for every string s, the google auth-code credential built from s
serializes to the auth-code-flow payload, the google id-token credential
built from the same s serializes to the id-token-flow payload, and the two
payloads are distinct: the shape depends on the tag of the factory
argument, not on the text. -/
theorem C2_google_payload_shape_depends_on_tag (s : String) :
    (google_auth_code (TaggedString.make s)).serialize_as_json =
      some (jsonObject [(("authCode"), jsonString s)]) ∧
    (google_id_token (TaggedString.make s)).serialize_as_json =
      some (jsonObject [(("id_token"), jsonString s)]) ∧
    (google_auth_code (TaggedString.make s)).serialize_as_json ≠
      (google_id_token (TaggedString.make s)).serialize_as_json := by
  refine ⟨rfl, rfl, fun h => ?_⟩
  have ha : ((google_auth_code (TaggedString.make s)).serialize_as_json).map
      (fun t => t.data.get? 2) = some (some ('a')) := rfl
  have hi : ((google_id_token (TaggedString.make s)).serialize_as_json).map
      (fun t => t.data.get? 2) = some (some ('i')) := rfl
  rw [h] at ha
  rw [hi] at ha
  exact absurd ha (by decide)

/-- C3: provider_type_from_enum is a total function on the closed
enumeration AuthProvider returning a non-empty canonical name for every
variant. -/
theorem C3_provider_mapping_total_nonempty :
    ∀ p : AuthProvider, provider_type_from_enum p ≠ "" := by
  intro p
  cases p <;> decide

/-- C4: serializing the same unmodified credential twice returns identical
strings and leaves the credential unchanged: the call is a deterministic
pure function of the data captured at construction. -/
theorem C4_serialize_idempotent :
    ∀ c : AppCredentials,
      (serialize_as_json_op ((serialize_as_json_op c).2)).1 = (serialize_as_json_op c).1 ∧
      (serialize_as_json_op c).2 = c :=
  fun _ => ⟨rfl, rfl⟩

/-- C5: when a document d encodes to canonical text t, the
document-taking Function factory succeeds and its credential serializes to
the same payload as the text-taking Function factory applied to t. -/
theorem C5_function_paths_agree (d : BsonDocument) (t : String)
    (h : encodeDocument d = Except.ok t) :
    ∃ c, function_doc d = Except.ok c ∧
      c.serialize_as_json = (function_text t).serialize_as_json := by
  refine ⟨⟨.FUNCTION, some fun _ => t⟩, ?_, rfl⟩
  simp [function_doc, h]

/-- C5 witness: the concrete document with one integer field encodes, and
the two Function paths agree on it. -/
theorem C5_function_paths_agree_witness :
    encodeDocument [(("a"), BsonValue.int 1)] = Except.ok ("\x7b\"a\":1\x7d") ∧
    ∃ c, function_doc [(("a"), BsonValue.int 1)] = Except.ok c ∧
      c.serialize_as_json = (function_text ("\x7b\"a\":1\x7d")).serialize_as_json :=
  ⟨rfl, C5_function_paths_agree [(("a"), BsonValue.int 1)] ("\x7b\"a\":1\x7d") rfl⟩

/-- C6: serialization never fails for credentials built by factories other
than the document-taking Function factory; for that factory the only
possible failure is the document-encoding failure of the external encoder,
which propagates unchanged and is raised at construction, and a
successfully constructed credential always serializes. -/
theorem C6_error_handling :
    (anonymous.serialize_as_json.isSome = true) ∧
    (∀ t, (facebook t).serialize_as_json.isSome = true) ∧
    (∀ t, (apple t).serialize_as_json.isSome = true) ∧
    (∀ c : AuthCode, (google_auth_code c).serialize_as_json.isSome = true) ∧
    (∀ t : IdToken, (google_id_token t).serialize_as_json.isSome = true) ∧
    (∀ t, (custom t).serialize_as_json.isSome = true) ∧
    (∀ u p, (username_password u p).serialize_as_json.isSome = true) ∧
    (∀ s, (function_text s).serialize_as_json.isSome = true) ∧
    (∀ k, (user_api_key k).serialize_as_json.isSome = true) ∧
    (∀ k, (server_api_key k).serialize_as_json.isSome = true) ∧
    (∀ d : BsonDocument,
      (∃ e, encodeDocument d = Except.error e ∧ function_doc d = Except.error e) ∨
      (∃ c t, function_doc d = Except.ok c ∧ c.serialize_as_json = some t)) := by
  refine ⟨rfl, fun _ => rfl, fun _ => rfl, fun _ => rfl, fun _ => rfl, fun _ => rfl,
    fun _ _ => rfl, fun _ => rfl, fun _ => rfl, fun _ => rfl, fun d => ?_⟩
  cases hd : encodeDocument d with
  | error e => exact Or.inl ⟨e, rfl, by simp [function_doc, hd]⟩
  | ok t => exact Or.inr ⟨⟨.FUNCTION, some fun _ => t⟩, t, by simp [function_doc, hd], rfl⟩

/-- C7 counterexample: copy assignment is a public operation of
AppCredentials (declared defaulted in the header) and it changes the
provider tag of an existing instance: assigning a facebook credential onto
an anonymous one leaves the instance with tag FACEBOOK, not the ANONYMOUS
tag its factory call set. -/
theorem C7_mutation_counterexample :
    (assign anonymous (facebook ("t"))).provider = AuthProvider.FACEBOOK ∧
    anonymous.provider = AuthProvider.ANONYMOUS ∧
    AuthProvider.FACEBOOK ≠ AuthProvider.ANONYMOUS :=
  ⟨rfl, rfl, by decide⟩

/-- C7 amended: apart from whole-value copy/move assignment (public and
defaulted in the header, replacing provider and payload factory together
with those of the source), no public operation mutates an AppCredentials
instance: the accessors provider(), provider_as_string() and
serialize_as_json() leave the state unchanged, and assignment yields
exactly the source credential, so the observed (provider, payload
producer) pair is always one set by a single factory call. -/
theorem C7_immutability_amended :
    (∀ c : AppCredentials, (provider_op c).2 = c) ∧
    (∀ c : AppCredentials, (provider_as_string_op c).2 = c) ∧
    (∀ c : AppCredentials, (serialize_as_json_op c).2 = c) ∧
    (∀ c c' : AppCredentials, assign c c' = c') :=
  ⟨fun _ => rfl, fun _ => rfl, fun _ => rfl, fun _ _ => rfl⟩

/-- C8: username_password(u, p) has provider tag USERNAME_PASSWORD and
serializes to a JSON object binding the username key to u and the password
key to p; on the spec example the payload is exactly the expected object. -/
theorem C8_username_password_payload :
    (∀ u p : String,
      (username_password u p).provider = AuthProvider.USERNAME_PASSWORD ∧
      (username_password u p).serialize_as_json =
        some (jsonObject [(("username"), jsonString u), (("password"), jsonString p)])) ∧
    (username_password ("alice") ("secret")).serialize_as_json =
      some ("\x7b\"username\":\"alice\",\"password\":\"secret\"\x7d") :=
  ⟨fun _ _ => ⟨rfl, rfl⟩, rfl⟩

/-- C10: a default-constructed credential (public defaulted constructor of
the header, bypassing every factory) holds the empty payload factory, and
invoking serialize_as_json() on it does not return a payload, whatever the
indeterminate provider tag p is. -/
theorem C10_default_constructed_no_payload :
    ∀ p : AuthProvider,
      (default_construct p).m_payload_factory = none ∧
      (default_construct p).serialize_as_json = none :=
  fun _ => ⟨rfl, rfl⟩
